import Mathlib

/-
Shallow embedding of the audio coordination and countdown scheduling engine of
the knee-timer repository (src/src/App.tsx together with its ttsUtils module,
which is concatenated into the same file).  JS integer-valued numbers are
modelled as `Int` (or `Nat` for loop counters); `Math.round` on nonnegative
values is floor(x + 1/2) over `Rat`; JS `%` and `Math.floor(x / n)` are
modelled by `Int.emod` and integer division, which agree with the JS operators
on the nonnegative operands occurring in the program.
-/

namespace KneeTimer

set_option maxRecDepth 100000

set_option maxHeartbeats 4000000

def SHORT_UTTERANCE_MIN_WORDS : Nat := 10

def SHORT_UTTERANCE_PAD : String := " Keep going."

/-- The fixed ordered utterance bank `MOTIVATION_BANK` from ttsUtils. -/
def MOTIVATION_BANK : List String := [
  "Every rep you do now brings your knee closer to full freedom.",
  "This pain has purpose - it\x27s clearing the path to walking with confidence again.",
  "Your future mobility is being built in this exact moment.",
  "Each stretch is unlocking a little more of the life you want back.",
  "Stay with it - this is how your knee regains trust in you.",
  "You\x27re rebuilding strength that will carry you for decades.",
  "A few seconds of discomfort for a lifetime of movement - keep going.",
  "Your knee is relearning, and you\x27re leading the way.",
  "This work restores stability, step by step.",
  "Your future walks, hikes, and stairs are being made possible right now.",
  "Healing requires effort - and you\x27re giving it.",
  "Every stretch improves tomorrow\x27s mobility.",
  "Keep going - the knee needs this to fully recover.",
  "This pain is temporary; the strength you gain is not.",
  "Imagine your future self moving freely - you\x27re building that body now.",
  "Your knee is responding, even if you can\x27t feel it yet.",
  "Slow progress is still progress - and it\x27s adding up.",
  "You\x27re reclaiming your independence with every second.",
  "These reps are laying the foundation for pain-free movement.",
  "Flexibility returns with consistency - and you\x27re showing up.",
  "Keep steady - you\x27re teaching your knee how to bend confidently again.",
  "This is how you get back to doing everything you love.",
  "Your persistence is rewiring strength into your joint.",
  "Every motion helps reduce stiffness for the rest of the day.",
  "You\x27re helping your knee trust movement again.",
  "Future walks, future steps, future adventures - all fueled by this work.",
  "Stay consistent - your knee heals through repetition.",
  "Think long-term: this is how you protect your mobility for life.",
  "Your knee is unlocking more range with every session.",
  "Painful doesn\x27t mean harmful - this is constructive effort.",
  "This minute strengthens your ability to stand tall and move strong.",
  "You\x27re rebuilding the foundation for an active future.",
  "Your knee appreciates every bit of movement you give it.",
  "These controlled motions restore confidence in your joint.",
  "Keep going - you\x27re creating a knee that supports your goals.",
  "Every stretch gently reclaims mobility.",
  "Your future self will look back and be grateful you stayed with this.",
  "This rehab is your bridge to full strength.",
  "Consistency is your superpower - you\x27re using it well.",
  "This work is reawakening muscles that protect your knee.",
  "You\x27re doing what\x27s necessary, not what\x27s easy.",
  "Each rep strengthens the muscles that stabilize your knee.",
  "You\x27re proving your resilience with every second.",
  "Rehab bends now mean easier bending later - stay with it.",
  "You\x27re creating lasting strength, one slow rep at a time.",
  "This effort adds years of active living to your future.",
  "Every controlled motion fights stiffness.",
  "Your commitment today gives you freedom tomorrow.",
  "This session matters - it\x27s a building block of recovery.",
  "You\x27re enhancing the balance and stability around your knee.",
  "Your knee is healing through your persistence.",
  "These movements tell your body it\x27s safe to move again.",
  "The road to full recovery is paved with moments like this.",
  "Slow and steady makes the knee stronger than rushing ever could.",
  "You\x27re restoring normal movement patterns - keep guiding your knee.",
  "This is how you break through mobility plateaus.",
  "Every second strengthens the connection between your mind and your knee.",
  "You\x27re reclaiming your full stride.",
  "Your knee is learning its full range again - you\x27re helping it remember.",
  "These reps make the difficult days easier.",
  "Your consistency is what transforms recovery.",
  "You\x27re laying the groundwork for pain-free steps.",
  "The effort you put in now will echo through the rest of your life.",
  "Keep breathing - motion plus oxygen equals healing.",
  "Your knee will reward this moment of effort.",
  "This is the work that ensures you walk stronger next month.",
  "Push just enough - progress is built gently.",
  "Every controlled movement helps loosen the scar tissue.",
  "You\x27re rebuilding coordination, bit by bit.",
  "This stretch unlocks a little more freedom.",
  "You\x27re adding strength that supports every future step.",
  "Keep at it - this is how you regain full function.",
  "These seconds right now are part of your comeback story.",
  "Your knee is capable - you\x27re helping it get there.",
  "You\x27re doing the hard part that most people avoid.",
  "This is strength training for a lifetime of movement.",
  "Every rep is an investment in your future mobility.",
  "Your body is healing - stay with it.",
  "This moment of effort reduces future moments of pain.",
  "Your knee is adapting more than you realize.",
  "You\x27re getting stronger precisely where you need it.",
  "Stay the course - healing takes patience and power.",
  "You\x27re showing real courage by doing this.",
  "Every motion increases the fluidity of your joint.",
  "The more consistent you are, the smoother recovery becomes.",
  "You\x27re teaching your knee to trust movement again.",
  "This effort brings you closer to walking without hesitation.",
  "Your knee is grateful for this moment.",
  "Recovery isn\x27t linear - but your commitment is.",
  "This work is restoring your natural strength.",
  "You\x27re rebuilding the ability to live actively and fully.",
  "Every second pushes stiffness further away.",
  "You\x27re doing the essential work that leads to a full recovery.",
  "You\x27re giving yourself the gift of future mobility.",
  "This session matters more than you know.",
  "Strong knees are built with moments like this.",
  "Your future freedom of movement starts right here.",
  "Keep going - future you is cheering for you.",
  "Each controlled breath helps you stay steady through the tough parts.",
  "This is how you earn back comfort on stairs and slopes.",
  "You\x27re restoring range of motion that makes daily life easier.",
  "Today\x27s effort supports tomorrow\x27s stability.",
  "Your knee is getting smoother with repetition - keep guiding it.",
  "You\x27re building the strength that protects your joint long-term.",
  "This session is an investment in a more active future.",
  "The hard part is showing up - and you\x27re doing it.",
  "You\x27re training for the life you want to live again.",
  "You\x27re closer than you think - keep going."]

/-- The fixed ordered utterance bank `START_BANK` from ttsUtils. -/
def START_BANK : List String := [
  "Ok, let\x27s get started. Let\x27s make this effort count.",
  "Ok, it is knee healing time, let\x27s get started.",
  "Alright, time to strengthen that knee. Here we go.",
  "Let\x27s do this. Every second counts toward recovery.",
  "Ready? Let\x27s go. Your knee will thank you for this.",
  "Ok, it\x27s go time. Let\x27s make every rep matter.",
  "Here we go. Stay focused and give it your best.",
  "Time to get to work. You\x27ve got what it takes.",
  "Let\x27s begin. This is where the healing happens.",
  "Alright, let\x27s get moving. Your knee is counting on you."]

/-- The fixed ordered utterance bank `CONGRATS_BANK` from ttsUtils. -/
def CONGRATS_BANK : List String := [
  "Time\x27s up. You did great. See you next session.",
  "And that\x27s it. Amazing effort, well done.",
  "Done. You should be proud of that effort.",
  "That\x27s a wrap. Great work today.",
  "Finished. Another session in the books, well done.",
  "Time. You gave it your all, and it shows.",
  "And we\x27re done. Excellent work, until next time.",
  "That\x27s it. Really solid effort today.",
  "Session complete. You\x27re getting stronger every time.",
  "Done. Great job, rest up and see you next session."]

/-- Function `pickMotivation(i)`: deterministic modulo selection over the bank
(`MOTIVATION_BANK[i % MOTIVATION_BANK.length]`). -/
def pickMotivation (i : Int) : String :=
  MOTIVATION_BANK.getD (i % (MOTIVATION_BANK.length : Int)).toNat ""

/-- Function `buildStartLine()` selects a random element of START_BANK; the random index
`Math.floor(Math.random() * START_BANK.length)` is modelled by an injected
index `r` reduced modulo the bank size. -/
def buildStartLine (r : Nat) : String :=
  START_BANK.getD (r % START_BANK.length) ""

/-- Function `buildCongratsLine()` with the random index modelled by an injected index. -/
def buildCongratsLine (r : Nat) : String :=
  CONGRATS_BANK.getD (r % CONGRATS_BANK.length) ""

/-- Function `buildMotivationLine(base, activity)` appends an activity suffix when the
trimmed activity is non-empty. -/
def buildMotivationLine (base activity : String) : String :=
  let act := activity.trim
  let actBit := if act = "" then "" else " Keep going with " ++ act ++ "."
  base ++ actBit

/-- Function `clampInt(n, min, max)` = `Math.max(min, Math.min(max, Math.trunc(n)))`;
on the integer inputs of this embedding `Math.trunc` is the identity. -/
def clampInt (n lo hi : Int) : Int :=
  max lo (min hi n)

/-- JS `Math.round (t * (num/den))` for nonnegative `t`, `num`, `den`:
`Math.round x = floor (x + 1/2)` (ties round up), and
`floor (t*num/den + 1/2) = (2*num*t + den) / (2*den)` where Lean `Int./` is
floor division for positive divisors.  For the fraction `9/10` the
double-precision product `t * 0.9` rounds to the same integer as the exact
rational on the whole integer range reachable by the program. -/
def jsRoundFrac (t num den : Int) : Int :=
  (2 * num * t + den) / (2 * den)

structure Milestone where
  key : String
  elapsed : Int
  text : String
deriving DecidableEq, Repr

/-- Function `computeMilestones(totalSeconds)`: four percentage milestones with
`elapsed = Math.round(t * fraction)` where `t = Math.max(1, Math.trunc(totalSeconds))`. -/
def computeMilestones (totalSeconds : Int) : List Milestone :=
  let t : Int := max 1 totalSeconds
  [ { key := "m25", elapsed := jsRoundFrac t 1 4,
      text := "25 percent done. Your knee is warming up and responding - great pace." },
    { key := "m50", elapsed := jsRoundFrac t 1 2,
      text := "Halfway there. This is where real recovery happens - stay steady." },
    { key := "m75", elapsed := jsRoundFrac t 3 4,
      text := "Three quarters done. You\x27re pushing through the toughest part - incredible work." },
    { key := "m90", elapsed := jsRoundFrac t 9 10,
      text := "Ninety percent done. This final stretch is where your knee gains the most - finish strong." } ]


/- Dedupe guard `lastSpokenRef.current`: in JS it holds a milestone key
(string), a secondsRemaining value (number), or null (here: `none`). -/
inductive Slot where
  | key (k : String)
  | sec (s : Int)
deriving DecidableEq, Repr

/- An utterance dispatched by `announce`.  A cadence dispatch records the
`elapsed30` index passed to `pickMotivation` alongside the spoken text. -/
inductive Dispatch where
  | milestone (key text : String)
  | cadence (elapsed30 : Int) (text : String)
deriving DecidableEq, Repr

def Dispatch.isMilestone : Dispatch → Bool
  | .milestone _ _ => true
  | .cadence _ _ => false

def Dispatch.isCadence : Dispatch → Bool
  | .milestone _ _ => false
  | .cadence _ _ => true

/- Configuration `announce` reads through refs: `speechEnabled`,
`totalSecondsRef`, `milestonesRef`, and the activity string. -/
structure AnnounceCfg where
  speechEnabled : Bool
  totalSeconds : Int
  milestones : List Milestone
  activity : String

/-- The `for (const m of ms)` loop of `announce`: the first milestone with
`elapsedSeconds === m.elapsed && lastSpokenRef.current !== m.key` fires. -/
def milestoneScan (elapsed : Int) (last : Option Slot) : List Milestone → Option Milestone
  | [] => none
  | m :: rest =>
    if elapsed = m.elapsed ∧ last ≠ some (.key m.key) then some m
    else milestoneScan elapsed last rest

/-- Function `announce(currentSecondsLeft)`: no-op when speech is disabled or at 0;
milestones take precedence; then the 30-second cadence with its dedupe check.
Returns the new dedupe guard and the dispatched utterance, if any. -/
def announce (cfg : AnnounceCfg) (last : Option Slot) (currentSecondsLeft : Int) :
    Option Slot × Option Dispatch :=
  if cfg.speechEnabled = false then (last, none)
  else if currentSecondsLeft = 0 then (last, none)
  else
    let elapsedSeconds := cfg.totalSeconds - currentSecondsLeft
    match milestoneScan elapsedSeconds last cfg.milestones with
    | some m => (some (.key m.key), some (.milestone m.key m.text))
    | none =>
      if currentSecondsLeft % 30 ≠ 0 then (last, none)
      else if last = some (.sec currentSecondsLeft) then (last, none)
      else
        let elapsed30 := elapsedSeconds / 30
        (some (.sec currentSecondsLeft),
         some (.cadence elapsed30
           (buildMotivationLine (pickMotivation elapsed30) cfg.activity)))

/-- Thread `announce` over a list of secondsRemaining values, collecting every
dispatch of every call together with the value it was called at. -/
def runAnnounces (cfg : AnnounceCfg) : Option Slot → List Int → List (Int × Option Dispatch)
  | _, [] => []
  | last, s :: rest =>
    let r := announce cfg last s
    (s, r.2) :: runAnnounces cfg r.1 rest

/-- The secondsRemaining values at which an uninterrupted running session
calls `announce`: `startTimer` announces the start boundary `totalSeconds`,
and each tick announces `next = prev - 1` for
`next = totalSeconds - 1, ..., 1`; the tick that reaches 0 takes the finish
branch and never calls `announce`. -/
def sessionSeconds (totalSeconds : Int) : List Int :=
  (List.range totalSeconds.toNat).map (fun k => totalSeconds - (k : Int))

/-- Announce dispatches of a full uninterrupted session, starting from the
null dedupe guard set by `startTimer` (`lastSpokenRef.current = null`). -/
def sessionDispatches (cfg : AnnounceCfg) : List (Int × Option Dispatch) :=
  runAnnounces cfg none (sessionSeconds cfg.totalSeconds)

/-- Configuration of a speech-enabled session of the given length, with the
milestones `startTimer` computes into `milestonesRef`. -/
def mkCfg (totalSeconds : Int) (activity : String) : AnnounceCfg :=
  { speechEnabled := true, totalSeconds := totalSeconds,
    milestones := computeMilestones totalSeconds, activity := activity }

/-- The `(elapsed, milestone key)` pairs at which the `announce` calls of a session
dispatched a milestone utterance. -/
def milestoneFirings (cfg : AnnounceCfg) : List (Int × String) :=
  (sessionDispatches cfg).filterMap fun p =>
    match p.2 with
    | some (.milestone k _) => some (cfg.totalSeconds - p.1, k)
    | _ => none

structure SessionState where
  secondsLeft : Int
  isRunning : Bool
  isFinished : Bool
  musicOn : Bool
  recording : Bool
  lastSpoken : Option Slot
deriving DecidableEq, Repr

inductive TickEvent where
  | congrats
  | dispatched (d : Dispatch)
  | stopRecording
deriving DecidableEq, Repr

/-- One firing of the 1-second interval callback installed by `startTimer`
(and, identically, by `resume`): decrement `secondsLeft`; when the new value
reaches 0, stop the background music, speak the congratulations line when
speech is enabled, clear the interval, leave Running, enter Finished, and stop
a live recording; otherwise call `announce(next)`. -/
def tick (cfg : AnnounceCfg) (st : SessionState) : SessionState × List TickEvent :=
  let next := st.secondsLeft - 1
  if next ≤ 0 then
    ({ st with secondsLeft := 0, musicOn := false, isRunning := false,
               isFinished := true, recording := false },
     (if cfg.speechEnabled then [TickEvent.congrats] else []) ++
       (if st.recording then [TickEvent.stopRecording] else []))
  else
    let r := announce cfg st.lastSpoken next
    ({ st with secondsLeft := next, lastSpoken := r.1 },
     match r.2 with
     | some u => [TickEvent.dispatched u]
     | none => [])



/-- C1: In a speech-enabled 1-minute (60 s) session, `announce` dispatches the
milestone utterances exactly at elapsed 15 (m25), 30 (m50, where the milestone
wins over the coinciding cadence slot), 45 (m75) and 54 (m90), and `announce`
dispatches nothing at `secondsRemaining = 0` whatever the dedupe guard holds. -/
theorem announce_60s_milestones :
    milestoneFirings (mkCfg 60 "") =
        [(15, "m25"), (30, "m50"), (45, "m75"), (54, "m90")]
      ∧ ∀ last : Option Slot, (announce (mkCfg 60 "") last 0).2 = none := by
  refine ⟨by decide, fun last => rfl⟩

/-- Witness for `announce_60s_milestones` applied at a concrete dedupe
guard. -/
theorem announce_60s_milestones_witness :
    (announce (mkCfg 60 "") (some (Slot.sec 7)) 0).2 = none :=
  announce_60s_milestones.2 (some (Slot.sec 7))

/-- C4: while Running with `1 ≤ secondsLeft ≤ totalSeconds`, a tick decrements
`secondsLeft` by exactly 1 and keeps it inside `[0, totalSeconds]`; the tick
that reaches 0 stops the music, requests the congratulations line when speech
is enabled, leaves Running, enters Finished and stops a live recording; every
other tick calls `announce(secondsLeft - 1)` and commits its dedupe guard. -/
theorem tick_step (cfg : AnnounceCfg) (st : SessionState)
    (hrun : st.isRunning = true)
    (h1 : 1 ≤ st.secondsLeft) (h2 : st.secondsLeft ≤ cfg.totalSeconds) :
    ((tick cfg st).1.secondsLeft = st.secondsLeft - 1
      ∧ 0 ≤ (tick cfg st).1.secondsLeft
      ∧ (tick cfg st).1.secondsLeft ≤ cfg.totalSeconds)
    ∧ (st.secondsLeft = 1 →
        (tick cfg st).1.musicOn = false
        ∧ (tick cfg st).1.isRunning = false
        ∧ (tick cfg st).1.isFinished = true
        ∧ (cfg.speechEnabled = true → TickEvent.congrats ∈ (tick cfg st).2)
        ∧ (st.recording = true → TickEvent.stopRecording ∈ (tick cfg st).2))
    ∧ (1 < st.secondsLeft →
        (tick cfg st).1.lastSpoken = (announce cfg st.lastSpoken (st.secondsLeft - 1)).1
        ∧ (tick cfg st).2 =
            ((announce cfg st.lastSpoken (st.secondsLeft - 1)).2).toList.map
              TickEvent.dispatched) := by
  by_cases h : st.secondsLeft - 1 ≤ 0
  · have ht : tick cfg st =
        ({ st with secondsLeft := 0, musicOn := false, isRunning := false,
                   isFinished := true, recording := false },
         (if cfg.speechEnabled then [TickEvent.congrats] else []) ++
           (if st.recording then [TickEvent.stopRecording] else [])) := by
      simp [tick, h]
    rw [ht]
    refine ⟨⟨?_, ?_, ?_⟩, fun _ => ⟨rfl, rfl, rfl, ?_, ?_⟩,
      fun hlt => absurd hlt (by omega)⟩
    · simp <;> omega
    · simp <;> omega
    · simp <;> omega
    · intro hs; simp [hs]
    · intro hr; simp [hr]
  · have ht : tick cfg st =
        ({ st with secondsLeft := st.secondsLeft - 1,
                   lastSpoken := (announce cfg st.lastSpoken (st.secondsLeft - 1)).1 },
         match (announce cfg st.lastSpoken (st.secondsLeft - 1)).2 with
         | some u => [TickEvent.dispatched u]
         | none => []) := by
      simp [tick, h]
    rw [ht]
    refine ⟨⟨?_, ?_, ?_⟩, fun he => absurd he (by omega), fun _ => ⟨rfl, ?_⟩⟩
    · simp <;> omega
    · simp <;> omega
    · simp <;> omega
    · cases hdd : (announce cfg st.lastSpoken (st.secondsLeft - 1)).2 <;> simp [hdd]

/-- Witness for `tick_step`: the finishing tick of a 60 s session with speech
enabled and a live recording. -/
theorem tick_step_witness :
    (⟨1, true, false, true, true, none⟩ : SessionState).isRunning = true
    ∧ (1 : Int) ≤ (⟨1, true, false, true, true, none⟩ : SessionState).secondsLeft
    ∧ (⟨1, true, false, true, true, none⟩ : SessionState).secondsLeft ≤
        (mkCfg 60 "").totalSeconds
    ∧ (tick (mkCfg 60 "") ⟨1, true, false, true, true, none⟩).1.isFinished = true := by
  have h := tick_step (mkCfg 60 "") ⟨1, true, false, true, true, none⟩ rfl
    (by decide) (by decide)
  exact ⟨rfl, by decide, by decide, (h.2.1 rfl).2.2.1⟩



/-- C7: for every `totalSeconds ≥ 1`, `computeMilestones` returns exactly the
four milestones m25, m50, m75, m90, all elapsed values lie in
`[0, totalSeconds]`, and they are non-decreasing in fraction order. -/
theorem computeMilestones_sound (totalSeconds : Int) (h : 1 ≤ totalSeconds) :
    (computeMilestones totalSeconds).map Milestone.key = ["m25", "m50", "m75", "m90"]
    ∧ (∀ m ∈ computeMilestones totalSeconds, 0 ≤ m.elapsed ∧ m.elapsed ≤ totalSeconds)
    ∧ List.Chain' (fun a b => a ≤ b)
        ((computeMilestones totalSeconds).map Milestone.elapsed) := by
  have hmax : max 1 totalSeconds = totalSeconds := max_eq_right h
  refine ⟨rfl, ?_, ?_⟩
  · intro m hm
    simp only [computeMilestones, hmax, List.mem_cons, List.not_mem_nil, or_false] at hm
    rcases hm with h1 | h1 | h1 | h1 <;> subst h1 <;>
      constructor <;> simp [jsRoundFrac] <;> omega
  · simp only [computeMilestones, hmax, List.map_cons, List.map_nil,
      List.chain'_cons, List.chain'_singleton, and_true, jsRoundFrac]
    refine ⟨?_, ?_, ?_⟩ <;> omega

/-- Witness for `computeMilestones_sound` at the 37-second session from the
repository sanity checks. -/
theorem computeMilestones_sound_witness :
    (computeMilestones 37).map Milestone.key = ["m25", "m50", "m75", "m90"]
    ∧ (∀ m ∈ computeMilestones 37, 0 ≤ m.elapsed ∧ m.elapsed ≤ 37)
    ∧ List.Chain' (fun a b => a ≤ b) ((computeMilestones 37).map Milestone.elapsed) :=
  computeMilestones_sound 37 (by decide)

/- ---- Speech failure policy (`speakWithSettings` and `ttsFailCountRef`) ---- -/

structure SpeechState where
  ttsFailCount : Nat
  speechEnabled : Bool
  ttsMuted : Bool
  ttsNote : Option String
deriving DecidableEq, Repr

/-- State at session start: counter 0, speech enabled, no notice. -/
def freshSpeech : SpeechState :=
  { ttsFailCount := 0, speechEnabled := true, ttsMuted := false, ttsNote := none }

/-- Function `speakWithSettings`: early-returns when speech is disabled; otherwise the
awaited speak attempt either succeeds (`ok = true`, counter reset to 0) or
fails (counter incremented; on reaching 3 consecutive failures speech is
disabled, TTS is muted and the persistent notice is surfaced). -/
def speakWithSettings (st : SpeechState) (ok : Bool) : SpeechState :=
  if st.speechEnabled = false then st
  else if ok then { st with ttsFailCount := 0 }
  else
    let c := st.ttsFailCount + 1
    if 3 ≤ c then
      { st with ttsFailCount := c, speechEnabled := false, ttsMuted := true,
                ttsNote := some "Voice coaching temporarily unavailable." }
    else { st with ttsFailCount := c }

/-- Fold a sequence of speak outcomes (`true` = success). -/
def runSpeech (st : SpeechState) : List Bool → SpeechState
  | [] => st
  | o :: rest => runSpeech (speakWithSettings st o) rest

/-- Three consecutive failures occur somewhere in the outcome list. -/
def hasThreeConsecFails : List Bool → Bool
  | [] => false
  | true :: rest => hasThreeConsecFails rest
  | [false] => false
  | false :: true :: rest => hasThreeConsecFails rest
  | [false, false] => false
  | false :: false :: true :: rest => hasThreeConsecFails rest
  | false :: false :: false :: _ => true

lemma runSpeech_disabled (tr : List Bool) (st : SpeechState)
    (h : st.speechEnabled = false) : runSpeech st tr = st := by
  induction tr with
  | nil => rfl
  | cons o rest ih =>
    have hs : speakWithSettings st o = st := by simp [speakWithSettings, h]
    show runSpeech (speakWithSettings st o) rest = st
    rw [hs]; exact ih

lemma runSpeech_enabled_iff (tr : List Bool) : ∀ c : Nat, c < 3 →
    ((runSpeech ⟨c, true, false, none⟩ tr).speechEnabled = true
      ↔ hasThreeConsecFails (List.replicate c false ++ tr) = false) := by
  induction tr with
  | nil =>
    intro c hc
    interval_cases c <;> simp [runSpeech, hasThreeConsecFails, List.replicate]
  | cons o rest ih =>
    intro c hc
    cases o with
    | true =>
      have hstep : speakWithSettings ⟨c, true, false, none⟩ true =
          ⟨0, true, false, none⟩ := by
        simp [speakWithSettings]
      show (runSpeech (speakWithSettings ⟨c, true, false, none⟩ true) rest).speechEnabled
          = true ↔ _
      rw [hstep, ih 0 (by norm_num)]
      interval_cases c <;> simp [hasThreeConsecFails, List.replicate]
    | false =>
      by_cases h2 : c = 2
      · subst h2
        have hstep : speakWithSettings ⟨2, true, false, none⟩ false =
            ⟨3, false, true, some "Voice coaching temporarily unavailable."⟩ := by
          simp [speakWithSettings]
        show (runSpeech (speakWithSettings ⟨2, true, false, none⟩ false) rest).speechEnabled
            = true ↔ _
        rw [hstep, runSpeech_disabled rest _ rfl]
        simp [hasThreeConsecFails, List.replicate]
      · have hc1 : c + 1 < 3 := by omega
        have hstep : speakWithSettings ⟨c, true, false, none⟩ false =
            ⟨c + 1, true, false, none⟩ := by
          simp [speakWithSettings, show ¬ 3 ≤ c + 1 from by omega]
        show (runSpeech (speakWithSettings ⟨c, true, false, none⟩ false) rest).speechEnabled
            = true ↔ _
        rw [hstep, ih (c + 1) hc1]
        interval_cases c <;> simp [hasThreeConsecFails, List.replicate]

lemma runSpeech_note (tr : List Bool) : ∀ st : SpeechState,
    st.speechEnabled = true → st.ttsNote = none →
    ((runSpeech st tr).speechEnabled = true ∧ (runSpeech st tr).ttsNote = none)
    ∨ ((runSpeech st tr).speechEnabled = false
        ∧ (runSpeech st tr).ttsNote = some "Voice coaching temporarily unavailable.") := by
  induction tr with
  | nil => intro st h hn; left; exact ⟨h, hn⟩
  | cons o rest ih =>
    intro st h hn
    cases o with
    | true =>
      have hstep : speakWithSettings st true = { st with ttsFailCount := 0 } := by
        simp [speakWithSettings, h]
      show _ ∨ _
      rw [show runSpeech st (true :: rest) = runSpeech (speakWithSettings st true) rest from rfl,
        hstep]
      exact ih _ (by simpa using h) (by simpa using hn)
    | false =>
      by_cases h3 : 3 ≤ st.ttsFailCount + 1
      · have hstep : speakWithSettings st false =
            { st with ttsFailCount := st.ttsFailCount + 1, speechEnabled := false,
                      ttsMuted := true,
                      ttsNote := some "Voice coaching temporarily unavailable." } := by
          simp [speakWithSettings, h, h3]
        rw [show runSpeech st (false :: rest) = runSpeech (speakWithSettings st false) rest from rfl,
          hstep, runSpeech_disabled rest _ rfl]
        right; exact ⟨rfl, rfl⟩
      · have hstep : speakWithSettings st false =
            { st with ttsFailCount := st.ttsFailCount + 1 } := by
          simp [speakWithSettings, h, h3]
        rw [show runSpeech st (false :: rest) = runSpeech (speakWithSettings st false) rest from rfl,
          hstep]
        exact ih _ (by simpa using h) (by simpa using hn)

/-- C3: every failed speak attempt increments the consecutive-failure counter
and any success resets it to 0; starting from a fresh session, speech remains
enabled exactly when no three consecutive failures occur, disabling surfaces
the persistent notice, and two failures followed by a success leave speech
enabled with the counter at 0. -/
theorem speechFailurePolicy :
    (∀ st : SpeechState, st.speechEnabled = true →
        (speakWithSettings st false).ttsFailCount = st.ttsFailCount + 1)
    ∧ (∀ st : SpeechState, st.speechEnabled = true →
        (speakWithSettings st true).ttsFailCount = 0)
    ∧ (∀ outcomes : List Bool,
        (runSpeech freshSpeech outcomes).speechEnabled = true
          ↔ hasThreeConsecFails outcomes = false)
    ∧ (∀ outcomes : List Bool,
        (runSpeech freshSpeech outcomes).speechEnabled = false →
          (runSpeech freshSpeech outcomes).ttsNote =
            some "Voice coaching temporarily unavailable.")
    ∧ ((runSpeech freshSpeech [false, false, true]).speechEnabled = true
        ∧ (runSpeech freshSpeech [false, false, true]).ttsFailCount = 0)
    ∧ (runSpeech freshSpeech [false, false, false]).speechEnabled = false := by
  refine ⟨?_, ?_, ?_, ?_, by decide, by decide⟩
  · intro st h
    by_cases h3 : 3 ≤ st.ttsFailCount + 1 <;> simp [speakWithSettings, h, h3]
  · intro st h
    simp [speakWithSettings, h]
  · intro outcomes
    simpa using runSpeech_enabled_iff outcomes 0 (by norm_num)
  · intro outcomes hdis
    rcases runSpeech_note outcomes freshSpeech rfl rfl with ⟨h1, _⟩ | ⟨_, h2⟩
    · rw [h1] at hdis; cases hdis
    · exact h2

/-- Witness for `speechFailurePolicy`: a first failure from the fresh state
increments the counter to 1, and after three straight failures the notice is
surfaced. -/
theorem speechFailurePolicy_witness :
    (speakWithSettings freshSpeech false).ttsFailCount = freshSpeech.ttsFailCount + 1
    ∧ (runSpeech freshSpeech [false, false, false]).ttsNote =
        some "Voice coaching temporarily unavailable." :=
  ⟨speechFailurePolicy.1 freshSpeech rfl,
   speechFailurePolicy.2.2.2.1 [false, false, false] speechFailurePolicy.2.2.2.2.2⟩



/- ---- Client-side speech cache and fetch coordinator (`getTtsBlob`) ----

A JS `Map` with string keys is modelled as an insertion-ordered association
list: `set` of an existing key updates it in place, `set` of a new key
appends, `delete` removes the entry, and `keys().next().value` is the first
key in insertion order. -/

def mapGet {α : Type} (m : List (String × α)) (k : String) : Option α :=
  match m with
  | [] => none
  | (k2, v) :: rest => if k2 = k then some v else mapGet rest k

def mapSet {α : Type} (m : List (String × α)) (k : String) (v : α) :
    List (String × α) :=
  match m with
  | [] => [(k, v)]
  | (k2, v2) :: rest =>
    if k2 = k then (k2, v) :: rest else (k2, v2) :: mapSet rest k v

def mapDelete {α : Type} (m : List (String × α)) (k : String) :
    List (String × α) :=
  match m with
  | [] => []
  | (k2, v2) :: rest => if k2 = k then rest else (k2, v2) :: mapDelete rest k

/-- Rendering `speed.toFixed(2)` for the nonnegative speeds the program uses:
two-decimal fixed-point rendering; the rounded value
`n = floor(speed * 100 + 1/2)` is computed from numerator and
denominator by integer arithmetic. -/
def jsToFixed2 (speed : Rat) : String :=
  let n : Int := (200 * speed.num + (speed.den : Int)) / (2 * (speed.den : Int))
  let ip := n / 100
  let fp := n % 100
  toString ip ++ "." ++ (if fp < 10 then "0" ++ toString fp else toString fp)

/-- Function `makeClientCacheKey(text, voice, speed)` = `voice|speed.toFixed(2)|text`. -/
def makeClientCacheKey (text voice : String) (speed : Rat) : String :=
  voice ++ "|" ++ jsToFixed2 speed ++ "|" ++ text

/- Blobs are abstracted as `Nat` identities; `fetches` logs the key of every
underlying fetch (`fetchTtsBlob`) issued, and `nextReq` numbers the pending
requests stored in the in-flight map. -/
structure TtsState where
  cache : List (String × Nat)
  inflight : List (String × Nat)
  nextReq : Nat
  fetches : List String
deriving DecidableEq, Repr

inductive TtsCall where
  | hit (blob : Nat)
  | awaitInflight (req : Nat)
  | startFetch (req : Nat)
deriving DecidableEq, Repr

/-- The synchronous first part of `getTtsBlob(text, voice, speed)` up to its first
await: a cache hit returns the cached blob at once; a key already in the
in-flight map returns (awaits) that same pending request; otherwise one new
underlying fetch is issued, logged, and recorded in the in-flight map. -/
def getTtsBlob (st : TtsState) (text voice : String) (speed : Rat) :
    TtsCall × TtsState :=
  let key := makeClientCacheKey text voice speed
  match mapGet st.cache key with
  | some cached => (.hit cached, st)
  | none =>
    match mapGet st.inflight key with
    | some inFlight => (.awaitInflight inFlight, st)
    | none =>
      (.startFetch st.nextReq,
       { st with inflight := mapSet st.inflight key st.nextReq,
                 nextReq := st.nextReq + 1,
                 fetches := st.fetches ++ [key] })

/-- The `.then` continuation of `getTtsBlob` when the underlying fetch for
`key` resolves with `blob`: drop the in-flight entry, populate the cache, and
when the size exceeds 200 delete the first (oldest-by-insertion) key — the JS
`if (firstKey)` truthiness test skips the delete for an empty-string key. -/
def ttsFetchResolved (st : TtsState) (key : String) (blob : Nat) : TtsState :=
  let inflight2 := mapDelete st.inflight key
  let cache2 := mapSet st.cache key blob
  let cache3 :=
    if 200 < cache2.length then
      match cache2 with
      | [] => cache2
      | (k0, _) :: _ => if k0 = "" then cache2 else mapDelete cache2 k0
    else cache2
  { st with inflight := inflight2, cache := cache3 }

/-- The `.catch` continuation when the fetch for `key` rejects: drop the
in-flight entry and re-throw — no negative caching. -/
def ttsFetchRejected (st : TtsState) (key : String) : TtsState :=
  { st with inflight := mapDelete st.inflight key }

lemma mapGet_mapSet_self {α : Type} (m : List (String × α)) (k : String) (v : α) :
    mapGet (mapSet m k v) k = some v := by
  induction m with
  | nil => simp [mapSet, mapGet]
  | cons p rest ih =>
    obtain ⟨k2, v2⟩ := p
    by_cases h : k2 = k <;> simp [mapSet, mapGet, h, ih]

/-- C2: a second `getTtsBlob` call with the same `(text, voice, speed)` while
the fetch of the first call is still in flight awaits exactly the pending request
recorded by the first call, leaves the state untouched, and no second
underlying fetch is issued — across the two calls exactly one fetch exists
for the cache key. -/
theorem getTtsBlob_dedupe (st : TtsState) (text voice : String) (speed : Rat)
    (hcache : mapGet st.cache (makeClientCacheKey text voice speed) = none)
    (hinflight : mapGet st.inflight (makeClientCacheKey text voice speed) = none) :
    (getTtsBlob st text voice speed).1 = TtsCall.startFetch st.nextReq
    ∧ mapGet ((getTtsBlob st text voice speed).2).inflight
        (makeClientCacheKey text voice speed) = some st.nextReq
    ∧ (getTtsBlob (getTtsBlob st text voice speed).2 text voice speed).1
        = TtsCall.awaitInflight st.nextReq
    ∧ (getTtsBlob (getTtsBlob st text voice speed).2 text voice speed).2
        = (getTtsBlob st text voice speed).2
    ∧ ((getTtsBlob st text voice speed).2).fetches.count
          (makeClientCacheKey text voice speed)
        = st.fetches.count (makeClientCacheKey text voice speed) + 1 := by
  have h1 : getTtsBlob st text voice speed =
      (TtsCall.startFetch st.nextReq,
       { st with
           inflight := mapSet st.inflight (makeClientCacheKey text voice speed) st.nextReq,
           nextReq := st.nextReq + 1,
           fetches := st.fetches ++ [makeClientCacheKey text voice speed] }) := by
    simp [getTtsBlob, hcache, hinflight]
  have h2 : mapGet (mapSet st.inflight (makeClientCacheKey text voice speed) st.nextReq)
      (makeClientCacheKey text voice speed) = some st.nextReq :=
    mapGet_mapSet_self _ _ _
  refine ⟨by rw [h1], by rw [h1]; exact h2, ?_, ?_, ?_⟩
  · rw [h1]; simp [getTtsBlob, hcache, h2]
  · rw [h1]; simp [getTtsBlob, hcache, h2]
  · rw [h1]; simp

/-- Witness for `getTtsBlob_dedupe`: two overlapping requests for the same
line from the empty cache state. -/
theorem getTtsBlob_dedupe_witness :
    mapGet ((⟨[], [], 0, []⟩ : TtsState)).cache (makeClientCacheKey "Hello" "echo" 1) = none
    ∧ (getTtsBlob (getTtsBlob ⟨[], [], 0, []⟩ "Hello" "echo" 1).2 "Hello" "echo" 1).1
        = TtsCall.awaitInflight 0 := by
  have h := getTtsBlob_dedupe ⟨[], [], 0, []⟩ "Hello" "echo" 1 rfl rfl
  exact ⟨rfl, h.2.2.1⟩



lemma mapGet_append_of_none {α : Type} (l1 l2 : List (String × α)) (k : String)
    (h : mapGet l1 k = none) : mapGet (l1 ++ l2) k = mapGet l2 k := by
  induction l1 with
  | nil => rfl
  | cons p rest ih =>
    obtain ⟨k2, v2⟩ := p
    have h2 : (if k2 = k then some v2 else mapGet rest k) = none := h
    by_cases hk : k2 = k
    · rw [if_pos hk] at h2; cases h2
    · rw [if_neg hk] at h2
      show (if k2 = k then some v2 else mapGet (rest ++ l2) k) = mapGet l2 k
      rw [if_neg hk]
      exact ih h2

lemma mapSet_of_none {α : Type} (m : List (String × α)) (k : String) (v : α)
    (h : mapGet m k = none) : mapSet m k v = m ++ [(k, v)] := by
  induction m with
  | nil => rfl
  | cons p rest ih =>
    obtain ⟨k2, v2⟩ := p
    by_cases hk : k2 = k
    · simp [mapGet, hk] at h
    · simp only [mapGet, if_neg hk] at h
      simp [mapSet, hk, ih h]

/- Concrete 200-entry cache for the C8 scenario: entry `i` holds the audio of
"line i", inserted in order of `i`, so the entry for "line 0" is the oldest. -/
def c8Key (i : Nat) : String := makeClientCacheKey ("line " ++ toString i) "echo" 1

def c8Tail : List (String × Nat) :=
  (List.range 199).map (fun i => (c8Key (i + 1), i + 1))

def c8State : TtsState :=
  ⟨(c8Key 0, 0) :: c8Tail, [], 0, []⟩

/-- C8 is refuted on the code: with the 200-entry cache `c8State` whose
oldest entry is the key of "line 0", a `getTtsBlob` hit on "line 0" leaves
the state untouched — no recency refresh — and when the fetch for a new key
resolves and overflows the bound, the just-hit entry is exactly the one
evicted. -/
theorem getTtsBlob_hit_then_evicted :
    (getTtsBlob c8State "line 0" "echo" 1).1 = TtsCall.hit 0
    ∧ (getTtsBlob c8State "line 0" "echo" 1).2 = c8State
    ∧ mapGet (ttsFetchResolved
        (getTtsBlob (getTtsBlob c8State "line 0" "echo" 1).2 "fresh line" "echo" 1).2
        (makeClientCacheKey "fresh line" "echo" 1) 200).cache (c8Key 0) = none := by
  decide

/-- C8 amended: a cache hit returns the cached blob immediately with the whole
state (fetch log included) unchanged, but it does not refresh the
recency of the entry: a later fetch resolution that overflows the 200-entry bound evicts
the oldest-by-insertion entry, even when that entry was just hit. -/
theorem getTtsBlob_hit_no_refresh (st : TtsState) (text voice : String)
    (speed : Rat) (blob : Nat)
    (h : mapGet st.cache (makeClientCacheKey text voice speed) = some blob) :
    getTtsBlob st text voice speed = (TtsCall.hit blob, st)
    ∧ ∀ (key k0 : String) (v0 b : Nat) (rest : List (String × Nat)),
        st.cache = (k0, v0) :: rest →
        mapGet rest k0 = none →
        mapGet st.cache key = none →
        st.cache.length = 200 →
        k0 ≠ "" →
        mapGet (ttsFetchResolved st key b).cache k0 = none := by
  constructor
  · simp [getTtsBlob, h]
  · intro key k0 v0 b rest hc hk0rest hkey hlen hk0
    have hk0key : k0 ≠ key := by
      intro hEq
      rw [hc] at hkey
      simp [mapGet, hEq] at hkey
    have hset : mapSet st.cache key b = st.cache ++ [(key, b)] :=
      mapSet_of_none _ _ _ hkey
    have hcache2 : mapSet st.cache key b = (k0, v0) :: (rest ++ [(key, b)]) := by
      rw [hset, hc]; rfl
    have hrest : rest.length = 199 := by
      rw [hc] at hlen; simpa using hlen
    have hlen201 : 200 < (mapSet st.cache key b).length := by
      rw [hcache2]; simp [hrest]
    have hdel : mapDelete ((k0, v0) :: (rest ++ [(key, b)])) k0 = rest ++ [(key, b)] := by
      simp [mapDelete]
    have hres : (ttsFetchResolved st key b).cache = rest ++ [(key, b)] := by
      have hlen2 : 200 < ((k0, v0) :: (rest ++ [(key, b)])).length := by
        simp [hrest]
      simp only [ttsFetchResolved, hcache2]
      rw [if_pos hlen2, if_neg hk0]
      exact hdel
    rw [hres]
    rw [mapGet_append_of_none _ _ _ hk0rest]
    simp [mapGet, Ne.symm hk0key]

/-- Witness for `getTtsBlob_hit_no_refresh` on the concrete 200-entry cache. -/
theorem getTtsBlob_hit_no_refresh_witness :
    getTtsBlob c8State "line 0" "echo" 1 = (TtsCall.hit 0, c8State)
    ∧ mapGet (ttsFetchResolved c8State (makeClientCacheKey "fresh line" "echo" 1) 200).cache
        (c8Key 0) = none := by
  have h := getTtsBlob_hit_no_refresh c8State "line 0" "echo" 1 0 (by decide)
  refine ⟨h.1, h.2 (makeClientCacheKey "fresh line" "echo" 1) (c8Key 0) 0 200
    c8Tail rfl ?_ ?_ ?_ ?_⟩
  · decide
  · decide
  · decide
  · decide



/- ---- Voice playback (`playBlob`) and the failure counter ---- -/

/- How a `playBlob` invocation ends: the audio element fires `ended`, the
audio element fires `error`, or the `audio.play()` call itself rejects
(playback could not start). -/
inductive PlayEvent where
  | ended
  | elementError
  | playRejected
deriving DecidableEq, Repr

structure PlayOutcome where
  resolved : Bool
  musicRestored : Bool
deriving DecidableEq, Repr

/-- Function `playBlob`: `onended` restores the background music and resolves;
`onerror` restores the background music and resolves (playback error treated
as "speech finished"); `audio.play().catch(reject)` rejects the promise, and
no handler restores the music on that path. -/
def playBlob : PlayEvent → PlayOutcome
  | .ended => { resolved := true, musicRestored := true }
  | .elementError => { resolved := true, musicRestored := true }
  | .playRejected => { resolved := false, musicRestored := false }

/-- Function `speakKokoro` awaits the fetched blob and then `playBlob`: the speak
attempt observed by `speakWithSettings` succeeds iff synthesis succeeded and
the `playBlob` promise resolved. -/
def speakOutcome (synthOk : Bool) (ev : PlayEvent) : Bool :=
  synthOk && (playBlob ev).resolved

/-- C9 is refuted on the code for a failure to start playback: when
`audio.play()` rejects, `playBlob` rejects instead of resolving as finished,
the background music volume is not restored, and `speakWithSettings` counts
the attempt as a failure, incrementing the consecutive-failure counter. -/
theorem playBlob_playRejected_counterexample :
    (playBlob PlayEvent.playRejected).resolved = false
    ∧ (playBlob PlayEvent.playRejected).musicRestored = false
    ∧ (speakWithSettings freshSpeech (speakOutcome true PlayEvent.playRejected)).ttsFailCount
        = freshSpeech.ttsFailCount + 1 := by
  decide

/-- C9 amended: for an audio element error (and for natural end) `playBlob`
resolves as if the utterance finished normally, the music volume is restored,
and the failure counter is not incremented (the attempt counts as a success,
resetting it to 0); a failure to start playback instead propagates as a
failed speak attempt and increments the counter. -/
theorem playBlob_elementError_benign :
    (∀ ev : PlayEvent, ev = PlayEvent.ended ∨ ev = PlayEvent.elementError →
        playBlob ev = { resolved := true, musicRestored := true })
    ∧ (∀ st : SpeechState, st.speechEnabled = true →
        (speakWithSettings st (speakOutcome true PlayEvent.elementError)).ttsFailCount = 0)
    ∧ (∀ st : SpeechState, st.speechEnabled = true →
        (speakWithSettings st (speakOutcome true PlayEvent.playRejected)).ttsFailCount
          = st.ttsFailCount + 1) := by
  refine ⟨?_, ?_, ?_⟩
  · rintro ev (rfl | rfl) <;> rfl
  · intro st h
    simp [speakWithSettings, speakOutcome, playBlob, h]
  · intro st h
    by_cases h3 : 3 ≤ st.ttsFailCount + 1 <;>
      simp [speakWithSettings, speakOutcome, playBlob, h, h3]

/-- Witness for `playBlob_elementError_benign` at the fresh speech state. -/
theorem playBlob_elementError_benign_witness :
    playBlob PlayEvent.elementError = { resolved := true, musicRestored := true }
    ∧ (speakWithSettings freshSpeech (speakOutcome true PlayEvent.elementError)).ttsFailCount
        = 0 :=
  ⟨playBlob_elementError_benign.1 PlayEvent.elementError (Or.inr rfl),
   playBlob_elementError_benign.2.1 freshSpeech rfl⟩

/- ---- Prefetch planner (`buildPrefetchLines`) ---- -/

structure PrefetchLine where
  key : String
  text : String
deriving DecidableEq, Repr

/-- Number of iterations of the JS loop
`for (let elapsed = 0; elapsed < totalSeconds; elapsed += 30)`; `Int.toNat`
clamps non-positive totals to zero iterations exactly like the loop. -/
def cadenceSlotCount (totalSeconds : Int) : Nat :=
  (totalSeconds.toNat + 29) / 30

/-- The elapsed values the loop keeps: every multiple of 30 below
`totalSeconds`, skipping the slot when `elapsed === 0 && totalSeconds % 30 !== 0`
and skipping milestone targets (`milestoneSet.has(elapsed)`). -/
def cadenceSlots (totalSeconds : Int) : List Nat :=
  ((List.range (cadenceSlotCount totalSeconds)).map (fun k => 30 * k)).filter
    (fun e =>
      !(decide (e = 0) && !(decide (totalSeconds % 30 = 0)))
      && !(decide ((e : Int) ∈ (computeMilestones totalSeconds).map Milestone.elapsed)))

/-- Function `buildPrefetchLines(totalSeconds, activity, motivationBank?)`: one start
line, one end line, the four milestones, then one cadence line per kept slot,
whose text uses `bank[Math.floor(elapsed/30) % bank.length]`; the random
start/congrats indices are injected as `rStart`, `rEnd`. -/
def buildPrefetchLines (totalSeconds : Int) (activity : String)
    (motivationBank : Option (List String)) (rStart rEnd : Nat) : List PrefetchLine :=
  let bank := motivationBank.getD MOTIVATION_BANK
  [{ key := "start", text := buildStartLine rStart },
   { key := "end", text := buildCongratsLine rEnd }]
  ++ (computeMilestones totalSeconds).map (fun m => { key := m.key, text := m.text })
  ++ (cadenceSlots totalSeconds).map (fun e =>
       { key := "t" ++ toString e,
         text := buildMotivationLine (bank.getD ((e / 30) % bank.length) "") activity })

/-- C5 is refuted on the code at `totalSeconds = 120`, an exact multiple of
30: `buildPrefetchLines(120, "physio")` does contain the cadence key `t0`
(the code skips the `elapsed = 0` slot only when `totalSeconds % 30 !== 0`),
in agreement with the test of the repository itself; the milestone-coincident slots
t30, t60, t90 are the ones suppressed. -/
theorem buildPrefetchLines_t0_at_120 :
    (buildPrefetchLines 120 "physio" none 0 0).map PrefetchLine.key
      = ["start", "end", "m25", "m50", "m75", "m90", "t0"] := by
  decide



/-- C5 amended: the keys of `buildPrefetchLines` are the start line, the end
line, the four milestone keys, and one `t{e}` cadence key per kept slot; a
slot for elapsed `e` is kept exactly when `e` is a multiple of 30 below
`totalSeconds` that is not a milestone target and — for `e = 0` —
`totalSeconds` is an exact multiple of 30 (the `t0` slot is suppressed
precisely for durations that are NOT exact multiples of 30). -/
theorem buildPrefetchLines_cadence (totalSeconds : Int) (activity : String)
    (motivationBank : Option (List String)) (rStart rEnd : Nat) :
    (buildPrefetchLines totalSeconds activity motivationBank rStart rEnd).map
        PrefetchLine.key
      = ["start", "end"]
        ++ (computeMilestones totalSeconds).map Milestone.key
        ++ (cadenceSlots totalSeconds).map (fun e => "t" ++ toString e)
    ∧ ∀ e : Nat, e ∈ cadenceSlots totalSeconds ↔
        (e % 30 = 0 ∧ (e : Int) < totalSeconds
          ∧ (e : Int) ∉ (computeMilestones totalSeconds).map Milestone.elapsed
          ∧ (e = 0 → totalSeconds % 30 = 0)) := by
  constructor
  · simp only [buildPrefetchLines, List.map_append, List.map_map, List.map_cons,
      List.map_nil, List.cons_append, List.nil_append]
    rfl
  · intro e
    rw [cadenceSlots, List.mem_filter]
    have hmem : e ∈ (List.range (cadenceSlotCount totalSeconds)).map (fun k => 30 * k)
        ↔ (e % 30 = 0 ∧ (e : Int) < totalSeconds) := by
      simp only [List.mem_map, List.mem_range, cadenceSlotCount]
      constructor
      · rintro ⟨k, hk, rfl⟩
        constructor
        · omega
        · omega
      · rintro ⟨h30, hlt⟩
        refine ⟨e / 30, ?_, ?_⟩ <;> omega
    rw [hmem]
    have hp : (!(decide (e = 0) && !(decide (totalSeconds % 30 = 0)))
        && !(decide ((e : Int) ∈ (computeMilestones totalSeconds).map Milestone.elapsed)))
          = true
        ↔ ((e = 0 → totalSeconds % 30 = 0)
            ∧ (e : Int) ∉ (computeMilestones totalSeconds).map Milestone.elapsed) := by
      by_cases h0 : e = 0 <;> by_cases hB : totalSeconds % 30 = 0 <;>
        by_cases hC : (e : Int) ∈ (computeMilestones totalSeconds).map Milestone.elapsed <;>
        simp [h0, hB, hC]
    rw [hp]
    tauto

/-- Witness for `buildPrefetchLines_cadence`: slot 0 is kept for the
120-second session. -/
theorem buildPrefetchLines_cadence_witness :
    (0 : Nat) ∈ cadenceSlots 120 :=
  ((buildPrefetchLines_cadence 120 "physio" none 0 0).2 0).mpr (by decide)

/- ---- Re-running `announce` at the same tick (pause/resume boundary) ---- -/

lemma milestoneScan_none_iff (elapsed : Int) (last : Option Slot) (ms : List Milestone) :
    milestoneScan elapsed last ms = none
      ↔ ∀ m ∈ ms, ¬(elapsed = m.elapsed ∧ last ≠ some (Slot.key m.key)) := by
  induction ms with
  | nil => simp [milestoneScan]
  | cons m rest ih =>
    by_cases h : elapsed = m.elapsed ∧ last ≠ some (Slot.key m.key)
    · simp [milestoneScan, if_pos h, h]
    · simp only [milestoneScan, if_neg h, List.mem_cons, ih]
      constructor
      · rintro hall m2 (rfl | hm2)
        · exact h
        · exact hall m2 hm2
      · intro hall m2 hm2
        exact hall m2 (Or.inr hm2)

lemma milestoneScan_eq_some (elapsed : Int) (last : Option Slot) (ms : List Milestone)
    (m : Milestone) (h : milestoneScan elapsed last ms = some m) :
    m ∈ ms ∧ elapsed = m.elapsed ∧ last ≠ some (Slot.key m.key) := by
  induction ms with
  | nil => cases h
  | cons m2 rest ih =>
    by_cases hc : elapsed = m2.elapsed ∧ last ≠ some (Slot.key m2.key)
    · rw [milestoneScan, if_pos hc] at h
      cases h
      exact ⟨List.mem_cons_self _ _, hc.1, hc.2⟩
    · rw [milestoneScan, if_neg hc] at h
      obtain ⟨hm, he, hl⟩ := ih h
      exact ⟨List.mem_cons_of_mem _ hm, he, hl⟩

lemma milestone_eq_of_pairwise (ms : List Milestone)
    (hdist : ms.Pairwise (fun a b => a.elapsed ≠ b.elapsed))
    (m m2 : Milestone) (hm : m ∈ ms) (hm2 : m2 ∈ ms)
    (he : m.elapsed = m2.elapsed) : m = m2 := by
  induction ms with
  | nil => cases hm
  | cons a rest ih =>
    rw [List.pairwise_cons] at hdist
    rcases List.mem_cons.mp hm with rfl | hmr
    · rcases List.mem_cons.mp hm2 with rfl | hm2r
      · rfl
      · exact absurd he (hdist.1 m2 hm2r)
    · rcases List.mem_cons.mp hm2 with rfl | hm2r
      · exact absurd he.symm (hdist.1 m hmr)
      · exact ih hdist.2 hmr hm2r

/-- C6 is refuted on the code at a tick where a milestone target coincides
with a 30-second cadence slot: in the 60 s session at `secondsRemaining = 30`
the first `announce` dispatches the m50 milestone, and a second `announce(30)`
(as `resume` performs after a pause on that boundary) dispatches a further
utterance — a cadence line — because the guard holds the milestone key, which
compares unequal to the remaining-seconds value. -/
theorem announce_rerun_counterexample :
    (announce (mkCfg 60 "") none 30).2
        = some (Dispatch.milestone "m50"
            "Halfway there. This is where real recovery happens - stay steady.")
    ∧ ((announce (mkCfg 60 "") (announce (mkCfg 60 "") none 30).1 30).2).isSome = true
    ∧ ((announce (mkCfg 60 "") (announce (mkCfg 60 "") none 30).1 30).2).map
        Dispatch.isCadence = some true := by
  decide

/-- C6 amended: re-running `announce(s)` directly after a dispatch for the
same tick dispatches nothing — the dedupe guard suppresses the duplicate —
EXCEPT when the first dispatch was a milestone whose target coincides with a
cadence slot (`s % 30 = 0`); there the second run dispatches one cadence
line, because the guard stores the milestone key, which never compares equal
to the remaining-seconds value.  The hypotheses say the session milestones
have pairwise distinct targets and the incoming guard does not already
suppress a milestone of the current elapsed value, both true in every
reachable session state. -/
theorem announce_rerun (cfg : AnnounceCfg) (last0 : Option Slot) (s : Int)
    (l1 : Option Slot) (d1 : Dispatch)
    (hdist : cfg.milestones.Pairwise (fun a b => a.elapsed ≠ b.elapsed))
    (hg : ∀ m ∈ cfg.milestones,
        last0 ≠ some (Slot.key m.key) ∨ cfg.totalSeconds - s ≠ m.elapsed)
    (h1 : announce cfg last0 s = (l1, some d1)) :
    (d1.isCadence = true → (announce cfg l1 s).2 = none)
    ∧ (d1.isMilestone = true → s % 30 ≠ 0 → (announce cfg l1 s).2 = none)
    ∧ (d1.isMilestone = true → s % 30 = 0 →
        ((announce cfg l1 s).2).map Dispatch.isCadence = some true) := by
  by_cases hsp : cfg.speechEnabled = false
  · simp only [announce, if_pos hsp, Prod.mk.injEq] at h1
    exact absurd h1.2 (by simp)
  by_cases hs0 : s = 0
  · simp only [announce, if_neg hsp, if_pos hs0, Prod.mk.injEq] at h1
    exact absurd h1.2 (by simp)
  simp only [announce, if_neg hsp, if_neg hs0] at h1
  cases hscan : milestoneScan (cfg.totalSeconds - s) last0 cfg.milestones with
  | some m =>
    rw [hscan] at h1
    simp only [Prod.mk.injEq] at h1
    obtain ⟨h1a, h1b⟩ := h1
    injection h1b with h1c
    subst h1a
    subst h1c
    obtain ⟨hmem, helap, _⟩ := milestoneScan_eq_some _ _ _ _ hscan
    have hscan2 : milestoneScan (cfg.totalSeconds - s) (some (Slot.key m.key))
        cfg.milestones = none := by
      rw [milestoneScan_none_iff]
      intro m2 hm2 hcond
      obtain ⟨he2, hne2⟩ := hcond
      have hmm : m = m2 := milestone_eq_of_pairwise cfg.milestones hdist m m2 hmem hm2
        (helap.symm.trans he2)
      exact hne2 (by rw [← hmm])
    refine ⟨?_, ?_, ?_⟩
    · intro hc
      simp [Dispatch.isCadence] at hc
    · intro _ h30
      simp only [announce, if_neg hsp, if_neg hs0, hscan2]
      rw [if_pos h30]
    · intro _ h30
      simp only [announce, if_neg hsp, if_neg hs0, hscan2]
      rw [if_neg (not_not_intro h30),
        if_neg (by simp : ¬ (some (Slot.key m.key) = some (Slot.sec s)))]
      rfl
  | none =>
    rw [hscan] at h1
    by_cases h30 : s % 30 = 0
    · rw [if_neg (not_not_intro h30)] at h1
      by_cases hls : last0 = some (Slot.sec s)
      · rw [if_pos hls] at h1
        simp only [Prod.mk.injEq] at h1
        exact absurd h1.2 (by simp)
      · rw [if_neg hls] at h1
        simp only [Prod.mk.injEq] at h1
        obtain ⟨h1a, h1b⟩ := h1
        injection h1b with h1c
        subst h1a
        subst h1c
        have hnomatch : ∀ m ∈ cfg.milestones, cfg.totalSeconds - s ≠ m.elapsed := by
          intro m hm he
          have hfirst := (milestoneScan_none_iff _ _ _).mp hscan m hm
          rcases hg m hm with hk | hne
          · exact hfirst ⟨he, hk⟩
          · exact hne he
        have hscan2 : milestoneScan (cfg.totalSeconds - s) (some (Slot.sec s))
            cfg.milestones = none := by
          rw [milestoneScan_none_iff]
          intro m2 hm2 hcond
          exact hnomatch m2 hm2 hcond.1
        refine ⟨?_, ?_, ?_⟩
        · intro _
          simp only [announce, if_neg hsp, if_neg hs0, hscan2]
          rw [if_neg (not_not_intro h30)]
          simp
        · intro hm
          simp [Dispatch.isMilestone] at hm
        · intro hm
          simp [Dispatch.isMilestone] at hm
    · rw [if_pos h30] at h1
      simp only [Prod.mk.injEq] at h1
      exact absurd h1.2 (by simp)

/-- Witness for `announce_rerun`: the coinciding m50/cadence tick of the 60 s
session; the second run dispatches a cadence line. -/
theorem announce_rerun_witness :
    Option.map Dispatch.isCadence
      (announce (mkCfg 60 "") (some (Slot.key "m50")) 30).2 = some true := by
  have h := announce_rerun (mkCfg 60 "") none 30 (some (Slot.key "m50"))
    (Dispatch.milestone "m50"
      "Halfway there. This is where real recovery happens - stay steady.")
    (by decide) (by decide) (by decide)
  exact h.2.2 rfl (by decide)

/- ---- Motivation-bank indices used by the cadence dispatches ---- -/

/-- The `(elapsed, elapsed30)` pairs of every cadence dispatch in a session:
`elapsed30` is the argument `Math.floor(elapsedSeconds / 30)` passed to
`pickMotivation`. -/
def cadenceFirings (cfg : AnnounceCfg) : List (Int × Int) :=
  (sessionDispatches cfg).filterMap fun p =>
    match p.2 with
    | some (Dispatch.cadence i _) => some (cfg.totalSeconds - p.1, i)
    | _ => none

/-- C10 (with the bank size corrected to 108): in a session of `m` minutes,
every cadence dispatch happens at an elapsed multiple of 30 with bank index
`elapsed / 30`, the indices lie in `0..29`, strictly below the 108-entry
bank, the modulo in `pickMotivation` is the identity on them, and no index
repeats within the session. -/
def C10Prop (m : Nat) : Prop :=
  (∀ p ∈ cadenceFirings (mkCfg (60 * m) ""),
      p.1 % 30 = 0 ∧ p.2 = p.1 / 30 ∧ 0 ≤ p.2 ∧ p.2 ≤ 29
      ∧ p.2 % (MOTIVATION_BANK.length : Int) = p.2)
  ∧ (cadenceFirings (mkCfg (60 * m) "")).Pairwise (fun a b => a.2 ≠ b.2)

/-- C10 is refuted on its bank-size figure: `MOTIVATION_BANK` has 108
entries, not 110. -/
theorem motivationBank_size_108 :
    MOTIVATION_BANK.length = 108 ∧ ¬ MOTIVATION_BANK.length = 110 := by
  decide

/-- C10 amended: for every session duration of `m` minutes, `1 ≤ m ≤ 15`, the
cadence dispatches of the session use pairwise distinct motivation-bank
indices `floor(elapsed/30) ∈ 0..29 < 108`, so `pickMotivation` never wraps
and no bank index repeats within a session. -/
theorem cadence_indices_distinct : ∀ m : Nat, 1 ≤ m → m ≤ 15 → C10Prop m := by
  intro m h1 h2
  interval_cases m <;> (unfold C10Prop; decide)

/-- Witness for `cadence_indices_distinct` at the 1-minute session. -/
theorem cadence_indices_distinct_witness : C10Prop 1 :=
  cadence_indices_distinct 1 (by decide) (by decide)


end KneeTimer
